import Mathlib

/-!
Verification of the Wallet BudgetBakers MCP server (src/server.py).

The development shallowly embeds the request gateway routine (the Python
function called underscore-fetch), the startup lifespan check, and the
per-tool query-parameter tables.  Python values of type str or int are
embedded as the inductive type Value; the outcome of the single HTTP GET
performed by the gateway is embedded as the inductive type Outcome, where
the field bodyJson carries the result of attempting to parse the response
body as JSON (none exactly when the body is not valid JSON, in which case
the Python call resp.json() raises json.JSONDecodeError).  Exceptions that
escape the gateway are modelled by the error constructor of Except.
-/

set_option autoImplicit false

namespace WalletMCP

/-- A Python query-parameter value: str or int (the type annotation of the
params argument in the source is dict[str, str | int | None]; the None case
is embedded as Option). -/
inductive Value where
  | str (s : String)
  | int (n : Int)
deriving DecidableEq, Repr

/-- A parsed JSON document, the result of resp.json() in the source.
The parser only ever produces JSON-native values, so the default=str
argument of json.dumps in the success path never fires. -/
inductive JsonVal where
  | null
  | bool (b : Bool)
  | num (n : Int)
  | str (s : String)
  | arr (xs : List JsonVal)
  | obj (fields : List (String × JsonVal))

/-- Lower-case hexadecimal digit, used for the control-character escapes of
the json module. -/
def hexDigit (n : Nat) : Char :=
  if n < 10 then Char.ofNat (48 + n) else Char.ofNat (87 + n)

/-- Escaping of one character inside a JSON string literal, as performed by
json.dumps with ensure_ascii=False: only the quote, the backslash and
control characters below 0x20 are escaped; every other character, ASCII or
not, is emitted verbatim. -/
def escapeJsonChar (c : Char) : String :=
  if c = '"' then "\\\""
  else if c = '\\' then "\\\\"
  else if c = '\n' then "\\n"
  else if c = '\t' then "\\t"
  else if c = '\r' then "\\r"
  else if c = Char.ofNat 8 then "\\b"
  else if c = Char.ofNat 12 then "\\f"
  else if c.toNat < 32 then
    "\\u00" ++ String.mk [hexDigit (c.toNat / 16), hexDigit (c.toNat % 16)]
  else String.singleton c

/-- A JSON string literal: quotes around the escaped characters. -/
def quoteJsonString (s : String) : String :=
  "\"" ++ String.join (s.data.map escapeJsonChar) ++ "\""

mutual

/-- json.dumps with ensure_ascii=False and no indent (the success path of
the gateway): default separators are a comma-space between items and a
colon-space between a key and its value. -/
def jsonDumps : JsonVal → String
  | JsonVal.null => "null"
  | JsonVal.bool b => cond b "true" "false"
  | JsonVal.num n => toString n
  | JsonVal.str s => quoteJsonString s
  | JsonVal.arr xs => "[" ++ jsonDumpsList xs ++ "]"
  | JsonVal.obj fs => "\x7b" ++ jsonDumpsFields fs ++ "\x7d"

/-- Array elements joined by comma-space. -/
def jsonDumpsList : List JsonVal → String
  | [] => ""
  | [x] => jsonDumps x
  | x :: y :: ys => jsonDumps x ++ ", " ++ jsonDumpsList (y :: ys)

/-- Object fields joined by comma-space, each key quoted. -/
def jsonDumpsFields : List (String × JsonVal) → String
  | [] => ""
  | [(k, v)] => quoteJsonString k ++ ": " ++ jsonDumps v
  | (k, v) :: g :: gs =>
      quoteJsonString k ++ ": " ++ jsonDumps v ++ ", " ++ jsonDumpsFields (g :: gs)

end

/-- One line of a pretty-printed error object: two-space indent, quoted key,
colon-space, quoted string value. -/
def errEntry (f : String × String) : String :=
  "  " ++ quoteJsonString f.1 ++ ": " ++ quoteJsonString f.2

/-- json.dumps with indent=2 as applied on the error paths of the gateway.
Every error payload built by the source is a flat object whose values are
strings, so the embedding specializes the pretty printer to that shape
(non-empty flat string-valued objects). -/
def errDumps (fields : List (String × String)) : String :=
  "\x7b\n" ++ String.intercalate ",\n" (fields.map errEntry) ++ "\n\x7d"

/-- Case-insensitive header lookup, the get method of the httpx Headers
multi-dict (first matching header wins). -/
def headerFind (headers : List (String × String)) (name : String) : Option String :=
  match headers.find? (fun p => p.1.toLower = name.toLower) with
  | some p => some p.2
  | none => none

/-- Header lookup with a default, e.response.headers.get(name, default). -/
def headerGetD (headers : List (String × String)) (name : String) (dflt : String) : String :=
  (headerFind headers name).getD dflt

/-- The outcome of the single GET request issued by the gateway: either an
HTTP response (with status, headers, raw body text, and the result of
parsing the body as JSON) or a transport-level failure with no response,
which httpx signals as a RequestError whose description is desc. -/
inductive Outcome where
  | response (status : Nat) (headers : List (String × String))
      (bodyText : String) (bodyJson : Option JsonVal)
  | transportError (desc : String)

/-- The success predicate of httpx: raise_for_status raises HTTPStatusError
exactly when the status is outside 200-299. -/
def is2xx (status : Nat) : Bool :=
  200 ≤ status && status ≤ 299

/-- The filter applied to one supplied parameter: the source keeps an entry
exactly when v is not None and v != "" (note that in Python an int never
equals the empty string, so int values always pass). -/
def dropEmpty (kv : String × Option Value) : Option (String × Value) :=
  match kv.2 with
  | none => none
  | some v => if v = Value.str "" then none else some (kv.1, v)

/-- Python dict assignment clean[k] = v: overwrite an existing entry for
the key in place, otherwise append at the end. -/
def dictInsert (d : List (String × Value)) (k : String) (v : Value) : List (String × Value) :=
  if d.any (fun p => p.1 = k) then
    d.map (fun p => if p.1 = k then (k, v) else p)
  else d ++ [(k, v)]

/-- One iteration of the filtering loop of the gateway. -/
def insertStep (d : List (String × Value)) (kv : String × Option Value) : List (String × Value) :=
  match dropEmpty kv with
  | none => d
  | some (k, v) => dictInsert d k v

/-- The outgoing query dictionary built by the gateway: start from the
mandatory agentHints entry and add every supplied parameter whose value is
neither None nor the empty string. -/
def cleanParams (params : List (String × Option Value)) : List (String × Value) :=
  params.foldl insertStep [("agentHints", Value.str "true")]

/-- The request gateway.  Given the supplied parameters and the outcome of
the GET request, it returns Except.ok s when the Python function returns
the string s, and Except.error e when an exception e escapes to the caller.
A 2xx response whose body is not valid JSON makes resp.json() raise
json.JSONDecodeError, which matches neither except clause of the source
(httpx.HTTPStatusError, httpx.RequestError) and therefore propagates. -/
def fetch (params : List (String × Option Value)) (out : Outcome) : Except String String :=
  match out with
  | Outcome.response status headers bodyText bodyJson =>
      if is2xx status then
        match bodyJson with
        | some j => Except.ok (jsonDumps j)
        | none => Except.error "json.decoder.JSONDecodeError"
      else if status = 429 then
        Except.ok (errDumps
          [("error", "Rate limit exceeded (429)"),
           ("retry_after", headerGetD headers "Retry-After" "unknown"),
           ("hint", "Use get_api_usage() to check remaining quota.")])
      else
        Except.ok (errDumps
          [("error", "HTTP " ++ toString status), ("detail", bodyText)])
  | Outcome.transportError desc =>
      Except.ok (errDumps [("error", "Request failed: " ++ desc)])

/-- The fixed upstream base URL of the source. -/
def BASE_URL : String := "https://rest.budgetbakers.com/wallet/v1/api"

/-- The configuration of the single shared httpx.AsyncClient built by the
lifespan: base url, Authorization header value, timeout in seconds. -/
structure ClientConfig where
  base_url : String
  authorization : String
  timeoutSeconds : Nat
deriving DecidableEq, Repr

/-- The app_lifespan startup routine: read WALLET_API_TOKEN from the
environment (os.environ.get with default ""), raise RuntimeError when the
token is falsy (absent or the empty string), otherwise construct the shared
client.  Except.error models the RuntimeError aborting startup. -/
def app_lifespan (env_token : Option String) : Except String ClientConfig :=
  let token := env_token.getD ""
  if token = "" then
    Except.error ("WALLET_API_TOKEN is required. " ++
      "Get your token at https://web.budgetbakers.com/settings/apiTokens")
  else
    Except.ok ⟨BASE_URL, "Bearer " ++ token, 30⟩

/-- Whether a startup attempt ended in the fatal configuration error. -/
def startupFails (r : Except String ClientConfig) : Bool :=
  match r with
  | Except.error _ => true
  | Except.ok _ => false

/-- The query-parameter dictionary passed by get_accounts to the gateway,
in the order of the dict literal of the source.  The source gives limit the
default 30 and offset the default 0. -/
def get_accounts_params (limit offset : Int)
    (account_id name account_type currency_code bank_account_number
     created_at updated_at : Option String) : List (String × Option Value) :=
  [("limit", some (Value.int limit)),
   ("offset", some (Value.int offset)),
   ("id", account_id.map Value.str),
   ("name", name.map Value.str),
   ("accountType", account_type.map Value.str),
   ("currencyCode", currency_code.map Value.str),
   ("bankAccountNumber", bank_account_number.map Value.str),
   ("createdAt", created_at.map Value.str),
   ("updatedAt", updated_at.map Value.str)]

/-- The default value of the limit argument of get_accounts. -/
def get_accounts_default_limit : Int := 30

/-- The default value of the offset argument of get_accounts. -/
def get_accounts_default_offset : Int := 0

/-- The query-parameter dictionary passed by get_records to the gateway,
in the order of the dict literal of the source.  The account_id argument is
a required str in the tool signature, so absence is unrepresentable; the
empty string is representable and is dropped by the gateway filter. -/
def get_records_params (account_id : String) (record_date : Option String)
    (limit offset : Int)
    (category_id label_id note payee payer amount record_type sort_by
     created_at updated_at : Option String) : List (String × Option Value) :=
  [("accountId", some (Value.str account_id)),
   ("recordDate", record_date.map Value.str),
   ("limit", some (Value.int limit)),
   ("offset", some (Value.int offset)),
   ("categoryId", category_id.map Value.str),
   ("labelId", label_id.map Value.str),
   ("note", note.map Value.str),
   ("payee", payee.map Value.str),
   ("payer", payer.map Value.str),
   ("amount", amount.map Value.str),
   ("recordType", record_type.map Value.str),
   ("sortBy", sort_by.map Value.str),
   ("createdAt", created_at.map Value.str),
   ("updatedAt", updated_at.map Value.str)]

/-- The query-parameter dictionary passed by get_records_by_id to the
gateway: the comma-separated record_ids string is forwarded under the
upstream name id. -/
def get_records_by_id_params (record_ids : String) : List (String × Option Value) :=
  [("id", some (Value.str record_ids))]

/-- A run of the gateway against an environment: the upstream is a function
from the outgoing query dictionary actually sent to the outcome of the GET
request. -/
def runTool (params : List (String × Option Value))
    (upstream : List (String × Value) → Outcome) : Except String String :=
  fetch params (upstream (cleanParams params))

/-- The get_records tool: build the parameter dictionary from the source
dict literal and delegate to the gateway. -/
def get_records (account_id : String) (record_date : Option String)
    (limit offset : Int)
    (category_id label_id note payee payer amount record_type sort_by
     created_at updated_at : Option String)
    (upstream : List (String × Value) → Outcome) : Except String String :=
  runTool (get_records_params account_id record_date limit offset category_id
    label_id note payee payer amount record_type sort_by created_at updated_at)
    upstream

/-- Modelled from the spec: the upstream records endpoint is not part of
this repository; per spec section 6, a records query requires a non-empty
account identifier as precondition, so a query dictionary carrying no
accountId entry is rejected with an HTTP client error naming the violated
precondition, and a query carrying one succeeds. -/
def upstreamRecords (query : List (String × Value)) : Outcome :=
  if query.any (fun p => p.1 = "accountId") then
    Outcome.response 200 [] "[]" (some (JsonVal.arr []))
  else
    Outcome.response 400 [] "accountId is required" none

/-- Whether the gateway raises on an outcome: exactly a 2xx response whose
body is not valid JSON. -/
def raisesJsonDecode (out : Outcome) : Bool :=
  match out with
  | Outcome.response status _ _ none => is2xx status
  | _ => false

/-- A sample comma-separated list of 31 record identifiers, one more than
the documented 30-item maximum. -/
def ids31 : String :=
  "r01,r02,r03,r04,r05,r06,r07,r08,r09,r10,r11,r12,r13,r14,r15,r16," ++
  "r17,r18,r19,r20,r21,r22,r23,r24,r25,r26,r27,r28,r29,r30,r31"

/-- A sample parameter dictionary used to instantiate the filtering
theorem: one int value, one empty string, one absent value, one non-empty
string. -/
def demoParams : List (String × Option Value) :=
  [("limit", some (Value.int 30)),
   ("name", some (Value.str "")),
   ("id", none),
   ("note", some (Value.str "x"))]

/-! ## Helper lemmas about the parameter filter -/

/-- Characterization of a kept parameter: dropEmpty returns some pair
exactly when the value was supplied, is not the empty string, and the pair
carries it under the same key. -/
theorem dropEmpty_eq_some_iff (k : String) (ov : Option Value) (p : String × Value) :
    dropEmpty (k, ov) = some p ↔ p.1 = k ∧ ov = some p.2 ∧ p.2 ≠ Value.str "" := by
  cases ov with
  | none => simp [dropEmpty]
  | some v =>
    by_cases h : v = Value.str ""
    · subst h
      simp only [dropEmpty, if_pos rfl]
      constructor
      · intro hc; exact absurd hc (by simp)
      · rintro ⟨-, h2, h3⟩
        exact absurd (Option.some.inj h2).symm h3
    · simp only [dropEmpty, if_neg h, Option.some.injEq]
      constructor
      · rintro rfl; exact ⟨rfl, rfl, h⟩
      · rintro ⟨h1, h2, -⟩
        cases p with
        | mk pk pv =>
          simp only at h1 h2 ⊢
          rw [h1, h2]

/-- dropEmpty drops exactly None and the empty string. -/
theorem dropEmpty_eq_none_iff (k : String) (ov : Option Value) :
    dropEmpty (k, ov) = none ↔ ov = none ∨ ov = some (Value.str "") := by
  cases ov with
  | none => simp [dropEmpty]
  | some v =>
    by_cases h : v = Value.str ""
    · subst h; simp [dropEmpty]
    · simp [dropEmpty, h]

/-- Inserting a fresh key appends it at the end of the dictionary. -/
theorem dictInsert_of_not_mem (d : List (String × Value)) (k : String) (v : Value)
    (h : k ∉ d.map Prod.fst) : dictInsert d k v = d ++ [(k, v)] := by
  have hany : d.any (fun p => p.1 = k) = false := by
    rw [Bool.eq_false_iff]
    intro hc
    rw [List.any_eq_true] at hc
    obtain ⟨p, hp, he⟩ := hc
    exact h (List.mem_map.mpr ⟨p, hp, (of_decide_eq_true he).symm ▸ rfl⟩)
  rw [dictInsert, hany]
  simp

/-- The filtering loop over a dictionary whose keys are fresh for the
accumulator and mutually distinct equals the accumulator followed by the
filtered entries in order. -/
theorem insertStep_foldl_eq (params : List (String × Option Value))
    (acc : List (String × Value))
    (hfresh : ∀ k, k ∈ acc.map Prod.fst → k ∉ params.map Prod.fst)
    (hnodup : (params.map Prod.fst).Nodup) :
    params.foldl insertStep acc = acc ++ params.filterMap dropEmpty := by
  induction params generalizing acc with
  | nil => simp
  | cons kv ps ih =>
    cases kv with
    | mk k ov =>
      rw [List.foldl_cons]
      rw [List.map_cons] at hnodup
      have hk_ps : k ∉ ps.map Prod.fst := (List.nodup_cons.mp hnodup).1
      have hnodup' : (ps.map Prod.fst).Nodup := (List.nodup_cons.mp hnodup).2
      cases hd : dropEmpty (k, ov) with
      | none =>
        have hstep : insertStep acc (k, ov) = acc := by
          rw [insertStep, hd]
        rw [hstep, List.filterMap_cons, hd]
        exact ih acc
          (fun k' hk' => fun hmem => hfresh k' hk' (by simp [hmem]))
          hnodup'
      | some p =>
        obtain ⟨hp1, hp2, hp3⟩ := (dropEmpty_eq_some_iff k ov p).mp hd
        have hkacc : k ∉ acc.map Prod.fst := by
          intro hmem
          exact hfresh k hmem (by simp)
        have hstep : insertStep acc (k, ov) = acc ++ [(k, p.2)] := by
          rw [insertStep, hd]
          have : p = (k, p.2) := by
            cases p; cases hp1; rfl
          rw [this]
          exact dictInsert_of_not_mem acc k p.2 hkacc
        rw [hstep, List.filterMap_cons, hd]
        have hfresh' : ∀ k', k' ∈ (acc ++ [(k, p.2)]).map Prod.fst →
            k' ∉ ps.map Prod.fst := by
          intro k' hk'
          rw [List.map_append, List.mem_append] at hk'
          rcases hk' with h | h
          · exact fun hmem => hfresh k' h (by simp [hmem])
          · simp only [List.map_cons, List.map_nil, List.mem_singleton] at h
            subst h; exact hk_ps
        rw [ih (acc ++ [(k, p.2)]) hfresh' hnodup']
        have : p = (k, p.2) := by cases p; cases hp1; rfl
        rw [← this, List.append_assoc]
        rfl

/-- The outgoing dictionary for a parameter table with mutually distinct
keys none of which is agentHints: the mandatory agentHints entry followed
by exactly the supplied entries with a non-absent, non-empty value. -/
theorem cleanParams_eq_of_fresh (params : List (String × Option Value))
    (h1 : "agentHints" ∉ params.map Prod.fst)
    (h2 : (params.map Prod.fst).Nodup) :
    cleanParams params = ("agentHints", Value.str "true") :: params.filterMap dropEmpty := by
  rw [cleanParams]
  rw [insertStep_foldl_eq params [("agentHints", Value.str "true")]
    (by intro k hk; simp at hk; subst hk; exact h1) h2]
  rfl

/-- In a dictionary with mutually distinct keys, a key determines its
value. -/
theorem snd_eq_of_nodup_keys (l : List (String × Option Value))
    (h : (l.map Prod.fst).Nodup) {k : String} {a b : Option Value}
    (ha : (k, a) ∈ l) (hb : (k, b) ∈ l) : a = b := by
  induction l with
  | nil => cases ha
  | cons x xs ih =>
    rw [List.map_cons, List.nodup_cons] at h
    rcases List.mem_cons.mp ha with ha' | ha' <;>
      rcases List.mem_cons.mp hb with hb' | hb'
    · exact congrArg Prod.snd (ha'.trans hb'.symm)
    · rw [← ha'] at h
      exact absurd (List.mem_map.mpr ⟨(k, b), hb', rfl⟩) h.1
    · rw [← hb'] at h
      exact absurd (List.mem_map.mpr ⟨(k, a), ha', rfl⟩) h.1
    · exact ih h.2 ha' hb'

/-- Membership in the outgoing dictionary: an entry is either the mandatory
agentHints flag or a supplied entry whose value was neither absent nor the
empty string. -/
theorem mem_cleanParams_iff (params : List (String × Option Value))
    (h1 : "agentHints" ∉ params.map Prod.fst)
    (h2 : (params.map Prod.fst).Nodup) (k : String) (v : Value) :
    (k, v) ∈ cleanParams params ↔
      (k = "agentHints" ∧ v = Value.str "true") ∨
      ((k, some v) ∈ params ∧ v ≠ Value.str "") := by
  rw [cleanParams_eq_of_fresh params h1 h2, List.mem_cons]
  constructor
  · rintro (he | hmem)
    · left
      exact ⟨congrArg Prod.fst he, congrArg Prod.snd he⟩
    · right
      rw [List.mem_filterMap] at hmem
      obtain ⟨a, ha, hda⟩ := hmem
      cases a with
      | mk ak aov =>
        obtain ⟨hp1, hp2, hp3⟩ := (dropEmpty_eq_some_iff ak aov (k, v)).mp hda
        simp only at hp1 hp2 hp3
        rw [← hp1] at ha
        rw [hp2] at ha
        exact ⟨ha, hp3⟩
  · rintro (⟨rfl, rfl⟩ | ⟨hmem, hne⟩)
    · left; rfl
    · right
      rw [List.mem_filterMap]
      exact ⟨(k, some v), hmem, (dropEmpty_eq_some_iff k (some v) (k, v)).mpr
        ⟨rfl, rfl, hne⟩⟩

/-! ## Equation lemmas for the gateway branches -/

/-- The 2xx branch of the gateway with a JSON-decodable body. -/
theorem fetch_eq_of_2xx (params : List (String × Option Value)) (status : Nat)
    (headers : List (String × String)) (bodyText : String) (j : JsonVal)
    (h : is2xx status = true) :
    fetch params (Outcome.response status headers bodyText (some j)) =
      Except.ok (jsonDumps j) := by
  simp [fetch, h]

/-- The 429 branch of the gateway. -/
theorem fetch_eq_of_429 (params : List (String × Option Value))
    (headers : List (String × String)) (bodyText : String)
    (bodyJson : Option JsonVal) :
    fetch params (Outcome.response 429 headers bodyText bodyJson) =
      Except.ok (errDumps
        [("error", "Rate limit exceeded (429)"),
         ("retry_after", headerGetD headers "Retry-After" "unknown"),
         ("hint", "Use get_api_usage() to check remaining quota.")]) := rfl

/-- The branch of the gateway for a non-2xx status other than 429. -/
theorem fetch_eq_of_other (params : List (String × Option Value)) (status : Nat)
    (headers : List (String × String)) (bodyText : String)
    (bodyJson : Option JsonVal)
    (h1 : is2xx status = false) (h2 : status ≠ 429) :
    fetch params (Outcome.response status headers bodyText bodyJson) =
      Except.ok (errDumps
        [("error", "HTTP " ++ toString status), ("detail", bodyText)]) := by
  simp [fetch, h1, h2]

/-! ## Claim theorems -/

/-- Claim C2: for every supplied parameter dictionary (distinct keys, none
of them the reserved agentHints name), the outgoing query-parameter set
equals the mandatory agentHints=true entry plus exactly those supplied
entries whose value is neither absent nor the empty string; a None- or
empty-valued parameter is never forwarded, a non-empty one always is, and
agentHints is present regardless of the other filters. -/
theorem fetch_param_filtering (params : List (String × Option Value))
    (h1 : "agentHints" ∉ params.map Prod.fst)
    (h2 : (params.map Prod.fst).Nodup) :
    cleanParams params = ("agentHints", Value.str "true") :: params.filterMap dropEmpty
    ∧ ("agentHints", Value.str "true") ∈ cleanParams params
    ∧ (∀ k v, (k, v) ∈ cleanParams params ↔
        (k = "agentHints" ∧ v = Value.str "true") ∨
        ((k, some v) ∈ params ∧ v ≠ Value.str ""))
    ∧ (∀ k, ((k, none) ∈ params ∨ (k, some (Value.str "")) ∈ params) →
        ∀ v, (k, v) ∉ cleanParams params) := by
  have heq := cleanParams_eq_of_fresh params h1 h2
  refine ⟨heq, ?_, mem_cleanParams_iff params h1 h2, ?_⟩
  · rw [heq]; exact List.mem_cons_self _ _
  · intro k hk v hv
    rcases (mem_cleanParams_iff params h1 h2 k v).mp hv with ⟨rfl, -⟩ | ⟨hmem, hne⟩
    · rcases hk with hk | hk
      · exact h1 (List.mem_map.mpr ⟨_, hk, rfl⟩)
      · exact h1 (List.mem_map.mpr ⟨_, hk, rfl⟩)
    · rcases hk with hk | hk
      · exact Option.noConfusion (snd_eq_of_nodup_keys params h2 hk hmem)
      · exact hne (Option.some.inj (snd_eq_of_nodup_keys params h2 hmem hk))

/-- Witness for C2 at a concrete dictionary: the int value and the
non-empty string survive in order, the empty string and the absent value
are dropped, and agentHints leads. -/
theorem fetch_param_filtering_witness :
    cleanParams demoParams =
      [("agentHints", Value.str "true"), ("limit", Value.int 30),
       ("note", Value.str "x")] := by
  have h := (fetch_param_filtering demoParams (by decide) (by decide)).1
  rw [h]
  rfl

/-- Claim C3: a 429 response yields the pretty-printed rate-limit object,
with retry_after equal to the Retry-After header when present and to the
literal string unknown when absent. -/
theorem fetch_rate_limit_429 (params : List (String × Option Value))
    (headers : List (String × String)) (bodyText : String)
    (bodyJson : Option JsonVal) :
    fetch params (Outcome.response 429 headers bodyText bodyJson) =
      Except.ok (errDumps
        [("error", "Rate limit exceeded (429)"),
         ("retry_after", headerGetD headers "Retry-After" "unknown"),
         ("hint", "Use get_api_usage() to check remaining quota.")])
    ∧ (headerFind headers "Retry-After" = none →
        headerGetD headers "Retry-After" "unknown" = "unknown")
    ∧ (∀ r, headerFind headers "Retry-After" = some r →
        headerGetD headers "Retry-After" "unknown" = r) := by
  refine ⟨rfl, ?_, ?_⟩
  · intro h; rw [headerGetD, h]; rfl
  · intro r h; rw [headerGetD, h]; rfl

/-- Claim C4: a non-2xx response with a status other than 429 yields the
pretty-printed object with exactly the keys error (HTTP status) and detail
(raw body text). -/
theorem fetch_http_error_other (params : List (String × Option Value))
    (status : Nat) (headers : List (String × String)) (bodyText : String)
    (bodyJson : Option JsonVal)
    (h1 : is2xx status = false) (h2 : status ≠ 429) :
    fetch params (Outcome.response status headers bodyText bodyJson) =
      Except.ok (errDumps
        [("error", "HTTP " ++ toString status), ("detail", bodyText)]) := by
  simp [fetch, h1, h2]

/-- Witness for C4: a 404 response with body not-found yields exactly the
pretty-printed two-key object of the spec example. -/
theorem fetch_http_error_other_witness :
    fetch [] (Outcome.response 404 [] "not found" none) =
      Except.ok "\x7b\n  \"error\": \"HTTP 404\",\n  \"detail\": \"not found\"\n\x7d" := by
  have h := fetch_http_error_other [] 404 [] "not found" none (by decide) (by decide)
  rw [h]
  rfl

/-- Claim C5: a transport-level failure with no HTTP response yields the
pretty-printed object whose single key error holds the message Request
failed followed by the description of the underlying failure, with no
detail or retry_after keys. -/
theorem fetch_transport_failure (params : List (String × Option Value)) (desc : String) :
    fetch params (Outcome.transportError desc) =
      Except.ok (errDumps [("error", "Request failed: " ++ desc)]) := rfl

/-- Claim C6: a 2xx response is returned as the parsed body re-serialized
to JSON; the serializer passes every character at or above 0x20 other than
the quote and the backslash through verbatim, so non-ASCII characters are
never escaped, as the accented example shows.  (The parsed body contains
only JSON-native values, so the default=str conversion of non-native
values never has anything to convert on this path.) -/
theorem fetch_success_serialization (params : List (String × Option Value))
    (status : Nat) (headers : List (String × String)) (bodyText : String)
    (j : JsonVal) (h1 : is2xx status = true) :
    fetch params (Outcome.response status headers bodyText (some j)) =
      Except.ok (jsonDumps j)
    ∧ (∀ c : Char, 32 ≤ c.toNat → c ≠ '"' → c ≠ '\\' →
        escapeJsonChar c = String.singleton c)
    ∧ jsonDumps (JsonVal.obj [("name", JsonVal.str "Café")]) =
        "\x7b\"name\": \"Café\"\x7d" := by
  refine ⟨by simp [fetch, h1], ?_, rfl⟩
  intro c hc hq hb
  have e1 : c ≠ '\n' := by intro e; rw [e] at hc; exact absurd hc (by decide)
  have e2 : c ≠ '\t' := by intro e; rw [e] at hc; exact absurd hc (by decide)
  have e3 : c ≠ '\r' := by intro e; rw [e] at hc; exact absurd hc (by decide)
  have e4 : c ≠ Char.ofNat 8 := by intro e; rw [e] at hc; exact absurd hc (by decide)
  have e5 : c ≠ Char.ofNat 12 := by intro e; rw [e] at hc; exact absurd hc (by decide)
  have e6 : ¬ c.toNat < 32 := by omega
  simp [escapeJsonChar, hq, hb, e1, e2, e3, e4, e5, e6]

/-- Witness for C6: a 200 response whose body is the accented example
object serializes with the non-ASCII character kept verbatim. -/
theorem fetch_success_serialization_witness :
    fetch [] (Outcome.response 200 [] ""
        (some (JsonVal.obj [("name", JsonVal.str "Café")]))) =
      Except.ok "\x7b\"name\": \"Café\"\x7d" := by
  have h := (fetch_success_serialization [] 200 [] ""
    (JsonVal.obj [("name", JsonVal.str "Café")]) (by decide)).1
  rw [h]
  rfl

/-- Claim C7: startup aborts with the fatal configuration error when the
token environment variable is absent or empty, and otherwise builds the
single shared client with the fixed base URL, the bearer Authorization
header, and the 30-second timeout. -/
theorem app_lifespan_token_check (t : String) (h : t ≠ "") :
    startupFails (app_lifespan none) = true
    ∧ startupFails (app_lifespan (some "")) = true
    ∧ app_lifespan (some t) = Except.ok ⟨BASE_URL, "Bearer " ++ t, 30⟩ := by
  refine ⟨rfl, rfl, ?_⟩
  simp [app_lifespan, h]

/-- Witness for C7 at a concrete non-empty token. -/
theorem app_lifespan_token_check_witness :
    app_lifespan (some "tok123") = Except.ok ⟨BASE_URL, "Bearer tok123", 30⟩ :=
  (app_lifespan_token_check "tok123" (by decide)).2.2

/-- Counterexample to claim C1 as stated: on a 2xx response whose body is
not valid JSON, resp.json() raises json.JSONDecodeError, which matches
neither except clause of the gateway and escapes to the caller instead of
being returned as a string. -/
theorem fetch_2xx_nonjson_raises :
    fetch [] (Outcome.response 200 [] "not json" none) =
      Except.error "json.decoder.JSONDecodeError" := rfl

/-- Claim C1 as amended: for every request, every parameter dictionary and
every outcome of the GET call except a 2xx response whose body fails to
parse as JSON, the gateway returns a string and no exception escapes; in
the excepted case the JSON decode error propagates to the caller. -/
theorem fetch_never_raises_amended (params : List (String × Option Value))
    (out : Outcome) (h : raisesJsonDecode out = false) :
    ∃ s, fetch params out = Except.ok s := by
  cases out with
  | transportError d => exact ⟨_, rfl⟩
  | response status headers bodyText bodyJson =>
    cases bodyJson with
    | some j =>
      by_cases h2 : is2xx status = true
      · exact ⟨_, fetch_eq_of_2xx params status headers bodyText j h2⟩
      · rw [Bool.not_eq_true] at h2
        by_cases h3 : status = 429
        · subst h3
          exact ⟨_, fetch_eq_of_429 params headers bodyText (some j)⟩
        · exact ⟨_, fetch_eq_of_other params status headers bodyText (some j) h2 h3⟩
    | none =>
      have h2 : is2xx status = false := by
        simpa [raisesJsonDecode] using h
      by_cases h3 : status = 429
      · subst h3
        exact ⟨_, fetch_eq_of_429 params headers bodyText none⟩
      · exact ⟨_, fetch_eq_of_other params status headers bodyText none h2 h3⟩

/-- Witness for the amended C1 at a transport failure. -/
theorem fetch_never_raises_amended_witness :
    raisesJsonDecode (Outcome.transportError "connection refused") = false
    ∧ ∃ s, fetch [] (Outcome.transportError "connection refused") = Except.ok s :=
  ⟨rfl, fetch_never_raises_amended [] (Outcome.transportError "connection refused") rfl⟩

/-- The keys of the get_accounts parameter table, independent of the
supplied values. -/
theorem get_accounts_params_keys (limit offset : Int)
    (a n t c b cr u : Option String) :
    (get_accounts_params limit offset a n t c b cr u).map Prod.fst =
      ["limit", "offset", "id", "name", "accountType", "currencyCode",
       "bankAccountNumber", "createdAt", "updatedAt"] := rfl

/-- The keys of the get_records parameter table, independent of the
supplied values. -/
theorem get_records_params_keys (account_id : String) (record_date : Option String)
    (limit offset : Int)
    (category_id label_id note payee payer amount record_type sort_by
     created_at updated_at : Option String) :
    (get_records_params account_id record_date limit offset category_id label_id
        note payee payer amount record_type sort_by created_at updated_at).map
      Prod.fst =
      ["accountId", "recordDate", "limit", "offset", "categoryId", "labelId",
       "note", "payee", "payer", "amount", "recordType", "sortBy", "createdAt",
       "updatedAt"] := rfl

/-- Claim C10: a supplied value is dropped exactly when it is None or the
empty string; the integer zero is forwarded, and the limit and offset of
get_accounts (whose source defaults are 30 and 0) are sent upstream for
every value including the defaults. -/
theorem zero_value_forwarded :
    (∀ (k : String) (n : Int),
        dropEmpty (k, some (Value.int n)) = some (k, Value.int n))
    ∧ (∀ (k : String) (ov : Option Value),
        dropEmpty (k, ov) = none ↔ ov = none ∨ ov = some (Value.str ""))
    ∧ get_accounts_default_limit = 30
    ∧ get_accounts_default_offset = 0
    ∧ (∀ (limit offset : Int) (a n t c b cr u : Option String),
        ("limit", Value.int limit) ∈
          cleanParams (get_accounts_params limit offset a n t c b cr u)
        ∧ ("offset", Value.int offset) ∈
          cleanParams (get_accounts_params limit offset a n t c b cr u)) := by
  refine ⟨fun k n => by simp [dropEmpty], dropEmpty_eq_none_iff, rfl, rfl, ?_⟩
  intro limit offset a n t c b cr u
  have h1 : "agentHints" ∉
      (get_accounts_params limit offset a n t c b cr u).map Prod.fst := by
    rw [get_accounts_params_keys]; decide
  have h2 : ((get_accounts_params limit offset a n t c b cr u).map Prod.fst).Nodup := by
    rw [get_accounts_params_keys]; decide
  constructor
  · exact (mem_cleanParams_iff _ h1 h2 "limit" (Value.int limit)).mpr
      (Or.inr ⟨by simp [get_accounts_params], by simp⟩)
  · exact (mem_cleanParams_iff _ h1 h2 "offset" (Value.int offset)).mpr
      (Or.inr ⟨by simp [get_accounts_params], by simp⟩)

/-- Counterexample to claim C9 as stated: the empty record_ids string is
not forwarded as the id parameter; it is removed by the generic
empty-value filter, so the outgoing query carries only agentHints. -/
theorem record_ids_empty_counterexample :
    ("id", Value.str "") ∉ cleanParams (get_records_by_id_params "")
    ∧ cleanParams (get_records_by_id_params "") =
        [("agentHints", Value.str "true")] := by decide

/-- Claim C9 as amended: no local validation of the documented limits is
performed; every non-empty record_ids string, including one listing more
than 30 identifiers, is forwarded unchanged as the upstream id parameter,
and every non-empty record_date range, including spans over 370 days, is
forwarded unchanged, the code relying on upstream enforcement.  (An empty
string is dropped by the generic empty-value filter, not validated.) -/
theorem no_local_limit_validation (record_ids : String) (h : record_ids ≠ "")
    (account_id : String) (record_date : String) (h2 : record_date ≠ "")
    (limit offset : Int)
    (category_id label_id note payee payer amount record_type sort_by
     created_at updated_at : Option String) :
    ("id", Value.str record_ids) ∈ cleanParams (get_records_by_id_params record_ids)
    ∧ ("recordDate", Value.str record_date) ∈
        cleanParams (get_records_params account_id (some record_date) limit offset
          category_id label_id note payee payer amount record_type sort_by
          created_at updated_at) := by
  constructor
  · have h1 : "agentHints" ∉ (get_records_by_id_params record_ids).map Prod.fst := by
      simp [get_records_by_id_params]
    have hnd : ((get_records_by_id_params record_ids).map Prod.fst).Nodup := by
      simp [get_records_by_id_params]
    exact (mem_cleanParams_iff _ h1 hnd "id" (Value.str record_ids)).mpr
      (Or.inr ⟨by simp [get_records_by_id_params],
        fun he => h (Value.str.inj he)⟩)
  · have h1 : "agentHints" ∉
        (get_records_params account_id (some record_date) limit offset category_id
          label_id note payee payer amount record_type sort_by created_at
          updated_at).map Prod.fst := by
      rw [get_records_params_keys]; decide
    have hnd : ((get_records_params account_id (some record_date) limit offset
        category_id label_id note payee payer amount record_type sort_by
        created_at updated_at).map Prod.fst).Nodup := by
      rw [get_records_params_keys]; decide
    exact (mem_cleanParams_iff _ h1 hnd "recordDate" (Value.str record_date)).mpr
      (Or.inr ⟨by simp [get_records_params],
        fun he => h2 (Value.str.inj he)⟩)

/-- Witness for the amended C9: a 31-identifier batch and a date span of
about two years are both forwarded unchanged. -/
theorem no_local_limit_validation_witness :
    ("id", Value.str ids31) ∈ cleanParams (get_records_by_id_params ids31)
    ∧ ("recordDate", Value.str "gte.2024-01-01,lte.2025-12-31") ∈
        cleanParams (get_records_params "acc1" (some "gte.2024-01-01,lte.2025-12-31")
          30 0 none none none none none none none none none none) :=
  no_local_limit_validation ids31 (by decide) "acc1"
    "gte.2024-01-01,lte.2025-12-31" (by decide) 30 0
    none none none none none none none none none none

/-- Claim C8: a get_records invocation with an empty account identifier
omits accountId from the outgoing query (the typed tool signature makes an
absent identifier unrepresentable), and against the spec-modelled upstream
that enforces the mandatory account identifier the call surfaces a clear
precondition error object. -/
theorem get_records_empty_account_fails (record_date : Option String)
    (limit offset : Int)
    (category_id label_id note payee payer amount record_type sort_by
     created_at updated_at : Option String) :
    "accountId" ∉
      (cleanParams (get_records_params "" record_date limit offset category_id
        label_id note payee payer amount record_type sort_by created_at
        updated_at)).map Prod.fst
    ∧ get_records "" record_date limit offset category_id label_id note payee
        payer amount record_type sort_by created_at updated_at upstreamRecords =
      Except.ok (errDumps
        [("error", "HTTP 400"), ("detail", "accountId is required")]) := by
  have h1 : "agentHints" ∉
      (get_records_params "" record_date limit offset category_id label_id note
        payee payer amount record_type sort_by created_at updated_at).map
        Prod.fst := by
    rw [get_records_params_keys]; decide
  have h2 : ((get_records_params "" record_date limit offset category_id label_id
      note payee payer amount record_type sort_by created_at updated_at).map
      Prod.fst).Nodup := by
    rw [get_records_params_keys]; decide
  have hnot : "accountId" ∉
      (cleanParams (get_records_params "" record_date limit offset category_id
        label_id note payee payer amount record_type sort_by created_at
        updated_at)).map Prod.fst := by
    intro hmem
    rw [List.mem_map] at hmem
    obtain ⟨⟨k, v⟩, hkv, hfst⟩ := hmem
    simp only at hfst
    subst hfst
    rcases (mem_cleanParams_iff _ h1 h2 "accountId" v).mp hkv with
      ⟨he, -⟩ | ⟨hmem2, hne⟩
    · exact absurd he (by decide)
    · simp [get_records_params] at hmem2
      exact hne hmem2
  refine ⟨hnot, ?_⟩
  have hany : (cleanParams (get_records_params "" record_date limit offset
      category_id label_id note payee payer amount record_type sort_by
      created_at updated_at)).any (fun p => p.1 = "accountId") = false := by
    rw [Bool.eq_false_iff]
    intro hc
    rw [List.any_eq_true] at hc
    obtain ⟨p, hp, he⟩ := hc
    exact hnot (List.mem_map.mpr ⟨p, hp, of_decide_eq_true he⟩)
  have hout : upstreamRecords (cleanParams (get_records_params "" record_date
      limit offset category_id label_id note payee payer amount record_type
      sort_by created_at updated_at)) =
      Outcome.response 400 [] "accountId is required" none := by
    rw [upstreamRecords, hany]
    rfl
  simp only [get_records, runTool, hout]
  exact fetch_eq_of_other _ 400 [] "accountId is required" none
    (by decide) (by decide)

end WalletMCP
